import Mathlib

/-!
Verification development for the chat application (app.py, utils.py).

The data model and operations below are a shallow embedding of the Python
source: chat sessions and the session store from app.py, and the provider
gateway, token estimator, and persistence adapter from utils.py.  The
Streamlit session state becomes an explicit `AppState` record; the
LangChain client becomes a function from translated messages to
`Except String String` (error description or reply text); the on-disk JSON
file becomes a key-value blob store holding parsed JSON documents (the
Python `json` module's serialize/parse pair is a collaborator that
faithfully preserves JSON values, so the store is modelled at the
JSON-value level).
-/

/-- A chat message dictionary: `{'role': ..., 'content': ...}`. -/
structure Message where
  role : String
  content : String
deriving DecidableEq, Repr

/-- A chat session dictionary from app.py: `{'id': ..., 'name': ..., 'messages': ...}`. -/
structure Chat where
  id : Nat
  name : String
  messages : List Message
deriving DecidableEq, Repr

/-- The Streamlit session state relevant to session management:
`st.session_state.chats` and `st.session_state.current_chat`. -/
structure AppState where
  chats : List Chat
  current_chat : Option Chat
deriving DecidableEq, Repr

/-- app.py `create_new_chat` (lines 28-36): appends a chat with
`id = len(chats) + 1`, `name = f"Chat {len(chats) + 1}"`, empty messages,
and makes it current. -/
def create_new_chat (s : AppState) : AppState :=
  let new_chat : Chat :=
    { id := s.chats.length + 1
      name := "Chat " ++ toString (s.chats.length + 1)
      messages := [] }
  { chats := s.chats ++ [new_chat], current_chat := some new_chat }

/-- app.py `delete_chat` (lines 38-48): filters out chats with the deleted
chat's id; if chats remain, the current chat becomes `chats[-1]`; otherwise
`create_new_chat()` runs on the now-empty store. -/
def delete_chat (s : AppState) (chat_to_delete : Chat) : AppState :=
  match s.chats.filter (fun c => c.id != chat_to_delete.id) with
  | [] => create_new_chat { chats := [], current_chat := s.current_chat }
  | a :: as => { chats := a :: as
                 current_chat := some ((a :: as).getLast (List.cons_ne_nil a as)) }

/-- LangChain chat-turn values built in utils.py `generate_response`. -/
inductive LCMessage where
  | SystemMessage (content : String)
  | HumanMessage (content : String)
  | AIMessage (content : String)
deriving DecidableEq, Repr

/-- The translation loop of utils.py `generate_response` (lines 77-87):
each dict is appended as the LangChain value matching its role; dicts with
any other role are skipped (the loop has no else branch). -/
def to_langchain : List Message → List LCMessage
  | [] => []
  | msg :: rest =>
    if msg.role = "system" then LCMessage.SystemMessage msg.content :: to_langchain rest
    else if msg.role = "user" then LCMessage.HumanMessage msg.content :: to_langchain rest
    else if msg.role = "assistant" then LCMessage.AIMessage msg.content :: to_langchain rest
    else to_langchain rest

/-- utils.py `generate_response` (lines 66-93): translate the messages,
invoke the client, return `response.content`; any exception is caught and
turned into the string `f"An error occurred: {e}"`.  The client is modelled
as a function returning either a reply or an error description; the
`model_type` and `deployment_name` parameters are unused by the body, as in
the source. -/
def generate_response (client : List LCMessage → Except String String)
    (messages : List Message) (model_type : String) (deployment_name : String) : String :=
  match client (to_langchain messages) with
  | Except.ok r => r
  | Except.error e => "An error occurred: " ++ e

/-- Python `str.lower`, character by character. -/
def py_lower (s : String) : String :=
  String.mk (s.data.map Char.toLower)

/-- Whether `pre` is an initial segment of `l` (Boolean, by `==`). -/
def chars_start_with : List Char → List Char → Bool
  | [], _ => true
  | _ :: _, [] => false
  | a :: as, b :: bs => a == b && chars_start_with as bs

/-- Python substring membership `needle in hay`, over character lists. -/
def chars_contain (needle : List Char) : List Char → Bool
  | [] => chars_start_with needle []
  | b :: bs => chars_start_with needle (b :: bs) || chars_contain needle bs

/-- The test `"claude" in model.lower()` from utils.py `count_tokens`. -/
def isClaudeModel (model : String) : Bool :=
  chars_contain "claude".data (py_lower model).data

/-- utils.py `count_tokens` (lines 96-107).  The tiktoken registry
(`tiktoken.encoding_for_model`) is modelled as a partial map from model
names to encoders; an absent entry is the lookup failure the `except`
branch catches, producing a warning (`st.warning`) and a `0` count.  The
result pairs the returned count with the list of warnings recorded. -/
def count_tokens (registry : String → Option (String → List Nat))
    (text : String) (model : String) : Nat × List String :=
  if isClaudeModel model then
    (text.length / 4, [])
  else
    match registry model with
    | some encoding => ((encoding text).length, [])
    | none => (0, ["Token counting error: no encoding for model"])

/-- JSON documents, as produced by Python `json.load`. -/
inductive Json where
  | null : Json
  | bool (b : Bool) : Json
  | num (n : Int) : Json
  | str (s : String) : Json
  | arr (elems : List Json) : Json
  | obj (fields : List (String × Json)) : Json

/-- `json.dump` of one message dict: keys `role`, `content` in insertion
order. -/
def messageToJson (m : Message) : Json :=
  Json.obj [("role", Json.str m.role), ("content", Json.str m.content)]

/-- `json.dump` of a message list. -/
def messagesToJson (ms : List Message) : Json :=
  Json.arr (ms.map messageToJson)

/-- Reading one message dict back out of a JSON document. -/
def jsonToMessage : Json → Option Message
  | Json.obj [("role", Json.str r), ("content", Json.str c)] => some { role := r, content := c }
  | _ => none

/-- Reading a list of message dicts back out of JSON documents. -/
def jsonListToMessages : List Json → Option (List Message)
  | [] => some []
  | j :: rest =>
    match jsonToMessage j, jsonListToMessages rest with
    | some m, some ms => some (m :: ms)
    | _, _ => none

/-- Reading an ordered message list back out of a JSON document. -/
def jsonToMessages : Json → Option (List Message)
  | Json.arr xs => jsonListToMessages xs
  | _ => none

/-- The file system as a blob store: path to stored JSON document. -/
def FileStore : Type := String → Option Json

/-- utils.py `save_chat_history` (lines 109-116): `json.dump` the message
list to the named file, overwriting it. -/
def save_chat_history (chat_history : List Message) (fs : FileStore)
    (filename : String) : FileStore :=
  fun path => if path = filename then some (messagesToJson chat_history) else fs path

/-- utils.py `load_chat_history` (lines 118-126): if the file exists,
return `json.load` of it; otherwise fall through to `return []`. -/
def load_chat_history (fs : FileStore) (filename : String) : Json :=
  match fs filename with
  | some doc => doc
  | none => Json.arr []

/-- The chat-input turn of app.py `main` (lines 105-140): append the user
message, rebuild the dict list for the API call, call `generate_response`,
then append the assistant reply. -/
def chat_turn (current : Chat) (prompt : String)
    (client : List LCMessage → Except String String)
    (model_type : String) (deployment_name : String) : Chat :=
  let messages1 := current.messages ++ [{ role := "user", content := prompt }]
  let api_messages := messages1.map (fun m => ({ role := m.role, content := m.content } : Message))
  let response := generate_response client api_messages model_type deployment_name
  { current with messages := messages1 ++ [{ role := "assistant", content := response }] }

/-! ## Theorems -/

/-- Claim C1: the claim asserts every session ever created gets a unique id.
The code computes `id = len(chats) + 1`, so after a deletion a fresh session
can be issued an id already held by a live session.  Concretely: create two
sessions (ids 1, 2), delete the session with id 1, create again — the new
session also gets id 2, so the live store holds two sessions with id 2. -/
theorem create_after_delete_reissues_id :
    ((create_new_chat (delete_chat
        (create_new_chat (create_new_chat { chats := [], current_chat := none }))
        { id := 1, name := "Chat 1", messages := [] })).chats.map Chat.id) = [2, 2] ∧
    ¬ List.Nodup ((create_new_chat (delete_chat
        (create_new_chat (create_new_chat { chats := [], current_chat := none }))
        { id := 1, name := "Chat 1", messages := [] })).chats.map Chat.id) := by
  decide

/-- Claim C3: deleting the only remaining session leaves the store with
exactly one session, that session has an empty message log and is the
current selection; and no deletion ever leaves the store empty. -/
theorem delete_last_session_resynthesizes (s : AppState) (c : Chat)
    (h : s.chats = [c]) :
    delete_chat s c =
      { chats := [{ id := 1, name := "Chat 1", messages := [] }]
        current_chat := some { id := 1, name := "Chat 1", messages := [] } } ∧
    ∀ (t : AppState) (d : Chat), (delete_chat t d).chats ≠ [] := by
  constructor
  · unfold delete_chat
    have hf : s.chats.filter (fun x => x.id != c.id) = [] := by
      rw [h]; simp
    rw [hf]
    unfold create_new_chat
    simp
    decide
  · intro t d
    unfold delete_chat
    cases hr : t.chats.filter (fun x => x.id != d.id) with
    | nil => simp [create_new_chat]
    | cons a as => simp

/-- Witness for C3 at a concrete one-session store. -/
theorem delete_last_session_resynthesizes_witness :
    (AppState.mk [{ id := 5, name := "Chat 5", messages := [] }] none).chats
        = [{ id := 5, name := "Chat 5", messages := [] }] ∧
    (delete_chat (AppState.mk [{ id := 5, name := "Chat 5", messages := [] }] none)
        { id := 5, name := "Chat 5", messages := [] } =
      { chats := [{ id := 1, name := "Chat 1", messages := [] }]
        current_chat := some { id := 1, name := "Chat 1", messages := [] } } ∧
    ∀ (t : AppState) (d : Chat), (delete_chat t d).chats ≠ []) :=
  ⟨rfl, delete_last_session_resynthesizes
    (AppState.mk [{ id := 5, name := "Chat 5", messages := [] }] none)
    { id := 5, name := "Chat 5", messages := [] } rfl⟩

/-- Claim C9: loading from a destination that does not exist returns the
empty sequence (the function is total, so it cannot raise). -/
theorem load_chat_history_missing_file (fs : FileStore) (filename : String)
    (h : fs filename = none) :
    load_chat_history fs filename = Json.arr [] := by
  unfold load_chat_history
  rw [h]

/-- Witness for C9 on an empty file store. -/
theorem load_chat_history_missing_file_witness :
    ((fun _ => none : FileStore) "chat_history.json" = none) ∧
    load_chat_history (fun _ => none) "chat_history.json" = Json.arr [] :=
  ⟨rfl, load_chat_history_missing_file (fun _ => none) "chat_history.json" rfl⟩

/-- A concrete session used to exercise deletion from a multi-session store. -/
def chatA : Chat := { id := 1, name := "Chat 1", messages := [] }

/-- A second concrete session. -/
def chatB : Chat := { id := 2, name := "Chat 2", messages := [] }

/-- A third concrete session. -/
def chatC : Chat := { id := 3, name := "Chat 3", messages := [] }

/-- Claim C10: on a store with at least two sessions, deleting any session
(active or not) sets the active selection to the last session of the store
in current order; concretely, deleting non-active `chatB` from
`[chatA, chatB, chatC]` with `chatA` active moves the selection to `chatC`
even though `chatA` is still present. -/
theorem delete_chat_selects_last_remaining (s : AppState) (c : Chat)
    (h2 : 2 ≤ s.chats.length) (hc : c ∈ s.chats) :
    (delete_chat s c).current_chat = (delete_chat s c).chats.getLast? ∧
    ((delete_chat { chats := [chatA, chatB, chatC], current_chat := some chatA } chatB).current_chat
        = some chatC ∧
      chatA ∈ (delete_chat { chats := [chatA, chatB, chatC], current_chat := some chatA } chatB).chats ∧
      some chatA ≠ some chatC) := by
  refine ⟨?_, by decide, by decide, by decide⟩
  unfold delete_chat
  cases hr : s.chats.filter (fun x => x.id != c.id) with
  | nil => simp [create_new_chat]
  | cons a as => simp [List.getLast?_eq_getLast]

/-- Witness for C10 at the concrete three-session store. -/
theorem delete_chat_selects_last_remaining_witness :
    2 ≤ (AppState.mk [chatA, chatB, chatC] (some chatA)).chats.length ∧
    chatB ∈ (AppState.mk [chatA, chatB, chatC] (some chatA)).chats ∧
    (delete_chat (AppState.mk [chatA, chatB, chatC] (some chatA)) chatB).current_chat
      = (delete_chat (AppState.mk [chatA, chatB, chatC] (some chatA)) chatB).chats.getLast? :=
  ⟨by decide, by decide,
    (delete_chat_selects_last_remaining (AppState.mk [chatA, chatB, chatC] (some chatA)) chatB
      (by decide) (by decide)).1⟩

/-- Decoding the encoding of a message list recovers the list. -/
theorem jsonListToMessages_map (L : List Message) :
    jsonListToMessages (L.map messageToJson) = some L := by
  induction L with
  | nil => rfl
  | cons m rest ih =>
    rw [List.map_cons]
    unfold jsonListToMessages
    have h1 : jsonToMessage (messageToJson m) = some { role := m.role, content := m.content } := rfl
    rw [h1, ih]

/-- Claim C4: saving a message list and loading it back from the same
destination yields exactly the stored representation of the list — the
JSON array of `{role, content}` objects in original order — and that
representation decodes back to the original list, for every list including
the empty one. -/
theorem save_then_load_round_trips (L : List Message) (fs : FileStore) (filename : String) :
    load_chat_history (save_chat_history L fs filename) filename = messagesToJson L ∧
    jsonToMessages (messagesToJson L) = some L := by
  constructor
  · unfold load_chat_history save_chat_history
    simp
  · unfold jsonToMessages messagesToJson
    exact jsonListToMessages_map L

/-- Claim C5: `generate_response` is a total function into `String` (the
embedding of "never raises"), and its result is either the provider's reply
or the error string embedding the failure description. -/
theorem generate_response_never_raises (client : List LCMessage → Except String String)
    (messages : List Message) (model_type deployment_name : String) :
    (∃ r, client (to_langchain messages) = Except.ok r ∧
      generate_response client messages model_type deployment_name = r) ∨
    (∃ e, client (to_langchain messages) = Except.error e ∧
      generate_response client messages model_type deployment_name
        = "An error occurred: " ++ e) := by
  unfold generate_response
  cases h : client (to_langchain messages) with
  | ok r => exact Or.inl ⟨r, rfl, rfl⟩
  | error e => exact Or.inr ⟨e, rfl, rfl⟩

/-- Claim C6: after a full chat turn — whatever the provider client does,
succeed or fail — the messages that were in the session before the turn,
followed by the user's just-appended message, are exactly the initial
segment of the resulting log, and the log has grown by exactly two
messages; nothing is removed or rolled back. -/
theorem chat_turn_preserves_prior_messages (current : Chat) (prompt : String)
    (client : List LCMessage → Except String String) (model_type deployment_name : String) :
    (chat_turn current prompt client model_type deployment_name).messages.take
        (current.messages.length + 1)
      = current.messages ++ [{ role := "user", content := prompt }] ∧
    (chat_turn current prompt client model_type deployment_name).messages.length
      = current.messages.length + 2 := by
  unfold chat_turn
  constructor
  · have hlen : (current.messages ++ [({ role := "user", content := prompt } : Message)]).length
        = current.messages.length + 1 := by simp
    rw [← hlen]
    exact List.take_left _ _
  · simp

/-- The one-message translation that `generate_response` applies to
messages whose role is one of the three recognized roles. -/
def msg_to_lc (m : Message) : LCMessage :=
  if m.role = "system" then LCMessage.SystemMessage m.content
  else if m.role = "user" then LCMessage.HumanMessage m.content
  else LCMessage.AIMessage m.content

/-- The role a LangChain chat-turn value stands for. -/
def lc_role : LCMessage → String
  | LCMessage.SystemMessage _ => "system"
  | LCMessage.HumanMessage _ => "user"
  | LCMessage.AIMessage _ => "assistant"

/-- The content carried by a LangChain chat-turn value. -/
def lc_content : LCMessage → String
  | LCMessage.SystemMessage c => c
  | LCMessage.HumanMessage c => c
  | LCMessage.AIMessage c => c

/-- On message lists whose roles are all recognized, the translation loop
is exactly the element-wise translation. -/
theorem to_langchain_eq_map (C : List Message)
    (h : ∀ m ∈ C, m.role = "system" ∨ m.role = "user" ∨ m.role = "assistant") :
    to_langchain C = C.map msg_to_lc := by
  induction C with
  | nil => rfl
  | cons m rest ih =>
    have hm := h m (List.mem_cons_self m rest)
    have hrest : ∀ x ∈ rest, x.role = "system" ∨ x.role = "user" ∨ x.role = "assistant" :=
      fun x hx => h x (List.mem_cons_of_mem m hx)
    rcases hm with h1 | h1 | h1 <;>
      simp [to_langchain, msg_to_lc, h1, ih hrest]

/-- Claim C2: for a conversation whose messages carry the recognized roles,
`generate_response` translates every message exactly once, in the original
order, preserving role and content, and invokes the provider client with
exactly that translated list. -/
theorem generate_response_uses_messages_in_order
    (client : List LCMessage → Except String String)
    (model_type deployment_name : String) (C : List Message)
    (h : ∀ m ∈ C, m.role = "system" ∨ m.role = "user" ∨ m.role = "assistant") :
    (to_langchain C).map lc_role = C.map Message.role ∧
    (to_langchain C).map lc_content = C.map Message.content ∧
    generate_response client C model_type deployment_name =
      (match client (to_langchain C) with
        | Except.ok r => r
        | Except.error e => "An error occurred: " ++ e) := by
  refine ⟨?_, ?_, rfl⟩
  · rw [to_langchain_eq_map C h, List.map_map]
    apply List.map_congr_left
    intro m hm
    rcases h m hm with h1 | h1 | h1 <;> simp [msg_to_lc, lc_role, h1]
  · rw [to_langchain_eq_map C h, List.map_map]
    apply List.map_congr_left
    intro m hm
    simp only [Function.comp_apply, msg_to_lc]
    split <;> try split
    all_goals rfl

/-- A concrete two-message conversation for exercising the translation. -/
def wMsgs : List Message :=
  [{ role := "user", content := "hi" }, { role := "assistant", content := "ok" }]

/-- Witness for C2 on a concrete conversation and a failing client. -/
theorem generate_response_uses_messages_in_order_witness :
    (∀ m ∈ wMsgs, m.role = "system" ∨ m.role = "user" ∨ m.role = "assistant") ∧
    ((to_langchain wMsgs).map lc_role = wMsgs.map Message.role ∧
     (to_langchain wMsgs).map lc_content = wMsgs.map Message.content ∧
     generate_response (fun _ => Except.error "boom") wMsgs "azure" "gpt-4"
        = "An error occurred: boom") :=
  ⟨by decide,
    generate_response_uses_messages_in_order (fun _ => Except.error "boom")
      "azure" "gpt-4" wMsgs (by decide)⟩

/-- Claim C7: for any model identifier containing "claude" (case
insensitively) the token count is `len(text) // 4`, for every text and
every tokenizer registry; in particular the empty text counts 0. -/
theorem count_tokens_claude (registry : String → Option (String → List Nat))
    (text model : String) (h : isClaudeModel model = true) :
    (count_tokens registry text model).fst = text.length / 4 ∧
    (count_tokens registry "" model).fst = 0 := by
  unfold count_tokens
  rw [h]
  exact ⟨rfl, rfl⟩

/-- Witness for C7 at the model "claude-x" with an empty registry. -/
theorem count_tokens_claude_witness :
    isClaudeModel "claude-x" = true ∧
    (count_tokens (fun _ => none) "hello" "claude-x").fst = 1 ∧
    (count_tokens (fun _ => none) "" "claude-x").fst = 0 :=
  ⟨by decide,
    (count_tokens_claude (fun _ => none) "hello" "claude-x" (by decide)).1,
    (count_tokens_claude (fun _ => none) "hello" "claude-x" (by decide)).2⟩

/-- Claim C8: `count_tokens` is a total function (the embedding of "never
raises"); when the model is not Claude-family and no tokenizer is
registered for it, the count is 0 and a warning is recorded. -/
theorem count_tokens_unknown_model (registry : String → Option (String → List Nat))
    (text model : String) (hm : isClaudeModel model = false)
    (hr : registry model = none) :
    (count_tokens registry text model).fst = 0 ∧
    (count_tokens registry text model).snd ≠ [] := by
  unfold count_tokens
  rw [hm, hr]
  exact ⟨rfl, by simp⟩

/-- Witness for C8 at the unregistered non-Claude model "gpt-9". -/
theorem count_tokens_unknown_model_witness :
    isClaudeModel "gpt-9" = false ∧
    ((fun _ => none : String → Option (String → List Nat)) "gpt-9" = none) ∧
    ((count_tokens (fun _ => none) "hello" "gpt-9").fst = 0 ∧
     (count_tokens (fun _ => none) "hello" "gpt-9").snd ≠ []) :=
  ⟨by decide, rfl,
    count_tokens_unknown_model (fun _ => none) "hello" "gpt-9" (by decide) rfl⟩
